import Mathlib

/-!
Shallow embedding of the two fine-tuning scripts
`finetune_sql.py` (full supervised fine-tuning) and
`finetune_mlx.py` (MLX/LoRA adapter variant), together with proofs of
the behavioural properties stated about them.

Python strings are modelled as lists of characters (`PyStr`); Python
integers as `Int`/`Nat`; CLI floats as rationals; fallible code as
`Except`/`Option`; printing as an accumulated list of output lines.
-/

set_option autoImplicit false

abbrev PyStr := List Char

/-- Character-list form of a Lean string literal. -/
def pys (s : String) : PyStr := s.data

/- ------------------------------------------------------------------
   `_run_with_filtered_stderr` (finetune_sql.py, lines 62-98)
   ------------------------------------------------------------------ -/

/-- The five fixed benign-substring patterns of `filter_patterns`
in `_run_with_filtered_stderr`. -/
def filter_patterns : List PyStr :=
  [ pys "incorrect regex pattern",
    pys "huggingface/tokenizers: The current process just got forked",
    pys "To disable this warning",
    pys "Avoid using `tokenizers` before the fork",
    pys "Explicitly set the environment variable TOKENIZERS_PARALLELISM" ]

/-- Python's `pat in line` on strings: `pat` occurs as a contiguous
substring of `line`. -/
def isSubstr (pat : PyStr) : PyStr → Bool
  | [] => pat.isPrefixOf []
  | c :: rest => pat.isPrefixOf (c :: rest) || isSubstr pat rest

/-- `any(pattern in line for pattern in filter_patterns)`:
the line contains at least one benign substring. -/
def isBenign (line : PyStr) : Bool :=
  filter_patterns.any (fun p => isSubstr p line)

/-- The stderr loop of `_run_with_filtered_stderr`: each incoming line
is printed to the parent stderr unless it matches a benign pattern. -/
def stderrLoop : List PyStr → List PyStr
  | [] => []
  | l :: ls => if isBenign l then stderrLoop ls else l :: stderrLoop ls

/-- Python exceptions relevant to the scripts.  In CPython,
`subprocess.CalledProcessError` derives from `SubprocessError`, which
derives from `Exception`; `RuntimeError` derives from `Exception`.
Neither is a subclass of the other. -/
inductive PyError where
  | calledProcessError (returncode : Int) (cmd : List PyStr)
  | runtimeError (msg : PyStr)
deriving DecidableEq, Repr

/-- Whether `except RuntimeError` catches the exception: it catches
`RuntimeError` and its subclasses only, and `CalledProcessError` is not
among them. -/
def catchesAsRuntimeError : PyError → Bool
  | .runtimeError _ => true
  | .calledProcessError _ _ => false

/-- `_run_with_filtered_stderr`: the subprocess produced `stderrLines`
on stderr and exited with `returncode`.  The filtered lines are printed;
then a non-zero return code raises `subprocess.CalledProcessError`. -/
def run_with_filtered_stderr (cmd : List PyStr) (returncode : Int)
    (stderrLines : List PyStr) : List PyStr × Option PyError :=
  (stderrLoop stderrLines,
    if returncode ≠ 0 then some (.calledProcessError returncode cmd) else none)

/- ------------------------------------------------------------------
   `get_device_info` (finetune_sql.py, lines 162-191)
   ------------------------------------------------------------------ -/

/-- The dict returned by `get_device_info`. -/
structure DeviceInfo where
  device : PyStr
  bf16 : Bool
  fp16 : Bool
  default_batch_size : Nat
  gradient_checkpointing : Bool
deriving DecidableEq, Repr

/-- `get_device_info`, as a function of the probed platform facts
`platform.system() == "Darwin"`, `torch.backends.mps.is_available()`
and `torch.cuda.is_available()`. -/
def get_device_info (isMac mpsAvailable cudaAvailable : Bool) : DeviceInfo :=
  let has_mps := isMac && mpsAvailable
  if has_mps then
    { device := pys "mps", bf16 := false, fp16 := false,
      default_batch_size := 2, gradient_checkpointing := true }
  else if cudaAvailable then
    { device := pys "cuda", bf16 := true, fp16 := false,
      default_batch_size := 4, gradient_checkpointing := false }
  else
    { device := pys "cpu", bf16 := false, fp16 := false,
      default_batch_size := 1, gradient_checkpointing := true }

/-- The MPS branch's literal dict. -/
def mpsProfile : DeviceInfo :=
  { device := pys "mps", bf16 := false, fp16 := false,
    default_batch_size := 2, gradient_checkpointing := true }

/-- The CUDA branch's literal dict. -/
def cudaProfile : DeviceInfo :=
  { device := pys "cuda", bf16 := true, fp16 := false,
    default_batch_size := 4, gradient_checkpointing := false }

/-- The CPU branch's literal dict. -/
def cpuProfile : DeviceInfo :=
  { device := pys "cpu", bf16 := false, fp16 := false,
    default_batch_size := 1, gradient_checkpointing := true }

/- ------------------------------------------------------------------
   GGUF conversion step of `main` (finetune_sql.py, lines 101-159 and
   350-361)
   ------------------------------------------------------------------ -/

/-- `str(e)` for the modelled exceptions; for `CalledProcessError` this
is CPython's "returned non-zero exit status" message. -/
def pyErrorText : PyError → PyStr
  | .calledProcessError rc _ =>
      pys "Command returned non-zero exit status " ++ pys (toString rc) ++ pys "."
  | .runtimeError msg => msg

/-- `convert_to_gguf`: runs the converter subprocess through
`_run_with_filtered_stderr` and returns `output_path` on success; a
non-zero converter exit propagates the `CalledProcessError` raised by
`_run_with_filtered_stderr`.  The pair's first component is what was
printed to the parent's stderr. -/
def convert_to_gguf (outputPath : PyStr) (cmd : List PyStr)
    (converterRc : Int) (converterStderr : List PyStr) :
    List PyStr × Except PyError PyStr :=
  let r := run_with_filtered_stderr cmd converterRc converterStderr
  match r.2 with
  | some e => (r.1, .error e)
  | none => (r.1, .ok outputPath)

/-- The GGUF block of `main` (finetune_sql.py, lines 350-361):
`gguf_path = None; if not args.no_gguf: try convert_to_gguf ...
except RuntimeError: print warning; gguf_path = None`.
Returns `.ok (gguf_path, printed lines)` when `main` carries on to the
final summary, `.error e` when the exception escapes `main` (the
process then dies with a traceback and a non-zero exit code). -/
def mainGgufStep (noGguf : Bool) (finalPath : PyStr) (cmd : List PyStr)
    (converterRc : Int) (converterStderr : List PyStr) :
    Except PyError (Option PyStr × List PyStr) :=
  if noGguf then .ok (none, [])
  else
    let ggufPath := finalPath ++ pys ".gguf"
    let conv := convert_to_gguf ggufPath cmd converterRc converterStderr
    match conv.2 with
    | .ok p => .ok (some p, conv.1 ++ [pys "GGUF model saved to: " ++ p])
    | .error e =>
      if catchesAsRuntimeError e then
        .ok (none, conv.1 ++ [pys "Warning: GGUF conversion failed: " ++ pyErrorText e])
      else
        .error e

/- ------------------------------------------------------------------
   Formatters (finetune_sql.py `format_for_sft`, lines 223-233;
   finetune_mlx.py `to_chat_format`, lines 84-94)
   ------------------------------------------------------------------ -/

/-- A raw sql-create-context example: `context` (schema), `question`,
`answer`. -/
structure RawExample where
  context : PyStr
  question : PyStr
  answer : PyStr
deriving DecidableEq, Repr

/-- A role-tagged chat message dict. -/
structure Message where
  role : PyStr
  content : PyStr
deriving DecidableEq, Repr

/-- Opening text of the f-string prompt template, up to the embedded
`example["context"]`. -/
def promptHeader : PyStr := pys "Given the following SQL schema:\n"

/-- Middle text of the f-string prompt template, between the embedded
`example["context"]` and `example["question"]`. -/
def promptMid : PyStr := pys "\n\nWrite a SQL query to answer: "

/-- The user-turn prompt text built by both formatters (the f-string is
identical in `format_for_sft` and `to_chat_format`). -/
def sftPrompt (e : RawExample) : PyStr :=
  promptHeader ++ e.context ++ promptMid ++ e.question

/-- The prompt-completion record returned by `format_for_sft`. -/
structure SFTRecord where
  prompt : List Message
  completion : List Message
deriving DecidableEq, Repr

/-- `format_for_sft` (finetune_sql.py). -/
def format_for_sft (e : RawExample) : SFTRecord :=
  { prompt := [{ role := pys "user", content := sftPrompt e }],
    completion := [{ role := pys "assistant", content := e.answer }] }

/-- The `messages` record returned by `to_chat_format`. -/
structure ChatRecord where
  messages : List Message
deriving DecidableEq, Repr

/-- `to_chat_format` (finetune_mlx.py). -/
def to_chat_format (e : RawExample) : ChatRecord :=
  { messages :=
      [{ role := pys "user", content := sftPrompt e },
       { role := pys "assistant", content := e.answer }] }

/- ------------------------------------------------------------------
   Dataset loaders and the sample cap
   (finetune_sql.py, lines 194-220; finetune_mlx.py, lines 64-79)
   ------------------------------------------------------------------ -/

/-- Python's slice `xs[:k]` for an `int` bound `k`: a non-negative
bound keeps the first `k` elements; a negative bound drops the last
`|k|` elements (clamped at the ends either way). -/
def pySliceTo {α : Type} (k : Int) (xs : List α) : List α :=
  if 0 ≤ k then xs.take k.toNat else xs.take (xs.length - (-k).toNat)

/-- The cap idiom shared by `load_jsonl_dataset`, `load_local_dataset`
(finetune_sql.py) and the local branch of `prepare_data`
(finetune_mlx.py): `if max_samples: data = data[:max_samples]`.
The guard tests TRUTHINESS, so both `None` and `0` leave the data
uncapped. -/
def applyMaxSamples {α : Type} (maxSamples : Option Int) (xs : List α) : List α :=
  match maxSamples with
  | none => xs
  | some m => if m = 0 then xs else pySliceTo m xs

/-- ASCII whitespace stripped by Python's `str.strip()`. -/
def isPyWhitespace (c : Char) : Bool :=
  c = ' ' || c = '\t' || c = '\n' || c = '\r' || c = '\x0b' || c = '\x0c'

/-- `line.strip()` is falsy exactly when the line is all whitespace. -/
def isBlankLine (l : PyStr) : Bool := l.all isPyWhitespace

/-- `load_jsonl_dataset` (finetune_sql.py): keep the non-blank lines,
then apply the cap.  Each kept line stands for its `json.loads` parse,
which is a per-line operation that neither reorders nor drops records. -/
def load_jsonl_dataset (lines : List PyStr) (maxSamples : Option Int) : List PyStr :=
  applyMaxSamples maxSamples (lines.filter (fun l => !(isBlankLine l)))

/-- An element of the local JSON document's `"rows"` list: a wrapper
dict whose `"row"` field holds the payload. -/
structure RowEntry (α : Type) where
  row : α
deriving DecidableEq, Repr

/-- `load_local_dataset` (finetune_sql.py) and the local branch of
`prepare_data` (finetune_mlx.py): cap `data["rows"]`, then project
`row["row"]` from each kept entry. -/
def load_local_dataset {α : Type} (rows : List (RowEntry α))
    (maxSamples : Option Int) : List α :=
  (applyMaxSamples maxSamples rows).map RowEntry.row

/-- `load_hf_dataset` (finetune_sql.py) and the HF branch of
`prepare_data` (finetune_mlx.py):
`if max_samples: dataset = dataset.select(range(min(max_samples, len(dataset))))`. -/
def load_hf_dataset {α : Type} (dataset : List α) (maxSamples : Option Int) : List α :=
  match maxSamples with
  | none => dataset
  | some m =>
    if m = 0 then dataset
    else dataset.take (min m (Int.ofNat dataset.length)).toNat

/- ------------------------------------------------------------------
   Train/eval splitter (finetune_sql.py line 300, finetune_mlx.py
   line 100: `dataset.train_test_split(test_size=eval_split, seed=42)`)
   ------------------------------------------------------------------ -/

/-- Modelled from the spec: the deterministic pseudo-random draw used
by the seeded shuffle of `train_test_split`, which lives in the external
`datasets` library and is not part of this repository.  The spec only
requires the shuffle to be a fixed deterministic function of the seed
and the input size; a linear-congruential step provides that. -/
def lcg (s : Nat) : Nat := (1103515245 * s + 12345) % 2 ^ 31

/-- Modelled from the spec: seeded Fisher-Yates-style shuffle; each
step draws one position from the remaining pool. -/
def shuffleAux (s : Nat) (l : List Nat) : List Nat :=
  match l with
  | [] => []
  | x :: xs =>
    let i := s % (x :: xs).length
    (x :: xs).getD i 0 :: shuffleAux (lcg s) ((x :: xs).eraseIdx i)
termination_by l.length
decreasing_by
  simp only [List.length_eraseIdx, List.length_cons]
  have hi : s % (x :: xs).length < (x :: xs).length :=
    Nat.mod_lt _ (by simp)
  simp only [List.length_cons] at hi
  simp [hi]

/-- Modelled from the spec: the shuffled index order for a dataset of
size `n` under the given seed. -/
def shuffledIndices (seed n : Nat) : List Nat := shuffleAux seed (List.range n)

/-- Modelled from the spec: eval-set size `round(fraction × total)`;
the CLI float fraction is modelled as a rational. -/
def evalSize (f : ℚ) (n : Nat) : Nat := (round (f * n)).toNat

/-- Modelled from the spec: the index partition `(train, eval)` of
`range n` produced by the seeded split; it depends only on the
fraction, the seed and the input size. -/
def indexPartition (f : ℚ) (seed n : Nat) : List Nat × List Nat :=
  ((shuffledIndices seed n).drop (evalSize f n),
   (shuffledIndices seed n).take (evalSize f n))

/-- Modelled from the spec: `dataset.train_test_split(test_size=f,
seed=seed)`, returning the `(train, eval)` pair of row sequences. -/
def train_test_split {α : Type} (xs : List α) (f : ℚ) (seed : Nat) :
    List α × List α :=
  let p := indexPartition f seed xs.length
  (p.1.filterMap (fun i => xs[i]?), p.2.filterMap (fun i => xs[i]?))

/- ------------------------------------------------------------------
   CLI arguments and the SFTConfig construction
   (finetune_sql.py, lines 240-252 and 306-325)
   ------------------------------------------------------------------ -/

/-- The parsed CLI options of finetune_sql.py. -/
structure CliArgs where
  epochs : Nat
  batch_size : Nat
  lr : ℚ
  output_dir : PyStr
  max_samples : Option Int
  input : Option PyStr
  use_hf : Bool
  model : PyStr
  eval_split : ℚ
  no_gguf : Bool
  gguf_type : PyStr
deriving DecidableEq, Repr

/-- The fields of the `SFTConfig` object built by `main`. -/
structure SFTConfig where
  output_dir : PyStr
  num_train_epochs : Nat
  per_device_train_batch_size : Nat
  per_device_eval_batch_size : Nat
  gradient_accumulation_steps : Nat
  gradient_checkpointing : Bool
  learning_rate : ℚ
  bf16 : Bool
  fp16 : Bool
  logging_steps : Nat
  save_strategy : PyStr
  eval_strategy : PyStr
  max_length : Nat
  warmup_ratio : ℚ
  lr_scheduler_type : PyStr
  report_to : PyStr
  dataloader_pin_memory : Bool
deriving DecidableEq, Repr

/-- The `SFTConfig(...)` call of `main` (finetune_sql.py, lines
306-325), as a function of the parsed CLI arguments and the device
profile. -/
def buildSFTConfig (args : CliArgs) (device_info : DeviceInfo) : SFTConfig :=
  { output_dir := args.output_dir,
    num_train_epochs := args.epochs,
    per_device_train_batch_size := args.batch_size,
    per_device_eval_batch_size := args.batch_size,
    gradient_accumulation_steps := 4,
    gradient_checkpointing := device_info.gradient_checkpointing,
    learning_rate := args.lr,
    bf16 := device_info.bf16,
    fp16 := device_info.fp16,
    logging_steps := 10,
    save_strategy := pys "no",
    eval_strategy := pys "no",
    max_length := 512,
    warmup_ratio := 1/10,
    lr_scheduler_type := pys "cosine",
    report_to := pys "none",
    dataloader_pin_memory := device_info.device ≠ pys "mps" }

/- ------------------------------------------------------------------
   Platform check of the MLX script (finetune_mlx.py, lines 31-53
   and 190-191)
   ------------------------------------------------------------------ -/

/-- A `"=" * 60` banner line. -/
def banner60 : PyStr := List.replicate 60 '='

/-- The diagnostic block printed by `check_apple_silicon` before
`sys.exit(1)` on a non-macOS system. -/
def notMacErrorLines : List PyStr :=
  [ banner60,
    pys "ERROR: Not running on macOS",
    banner60,
    pys "",
    pys "MLX requires macOS with Apple Silicon (M1/M2/M3/M4).",
    pys "",
    pys "For other platforms, use:",
    pys "  - Linux/Windows with NVIDIA GPU: finetune_sql.py",
    pys "" ]

/-- The warning block printed when on macOS but not on an
arm64/aarch64 machine. -/
def intelMacWarningLines : List PyStr :=
  [ banner60,
    pys "WARNING: Not running on Apple Silicon",
    banner60,
    pys "",
    pys "MLX works best on Apple Silicon (M1/M2/M3/M4).",
    pys "Performance on Intel Macs will be limited.",
    pys "" ]

/-- `check_apple_silicon` (finetune_mlx.py): on a non-Darwin system it
prints the error block and exits with status 1 (`.error`); otherwise it
returns normally, printing the Intel-Mac warning block when the machine
is not arm64/aarch64. -/
def check_apple_silicon (system machine : PyStr) :
    Except (Int × List PyStr) (List PyStr) :=
  if system = pys "Darwin" then
    if machine = pys "arm64" ∨ machine = pys "aarch64" then .ok []
    else .ok intelMacWarningLines
  else .error (1, notMacErrorLines)

/-- The opening of the MLX script's `main`: `check_apple_silicon()` is
called first; everything after it (argument parsing, dataset
preparation, training, fuse/export, summary) is the `pipeline`
continuation, which only runs when the check returns normally. -/
def mlx_main_run {ρ : Type} (system machine : PyStr) (pipeline : Unit → ρ) :
    Except (Int × List PyStr) (List PyStr × ρ) :=
  match check_apple_silicon system machine with
  | .error e => .error e
  | .ok warnLines => .ok (warnLines, pipeline ())

/- ------------------------------------------------------------------
   `fuse_and_export` and the final summary of the MLX script
   (finetune_mlx.py, lines 156-187 and 261-286)
   ------------------------------------------------------------------ -/

/-- `fuse_and_export` (finetune_mlx.py): runs `mlx_lm.fuse` with
`check=True` (a non-zero exit raises `CalledProcessError`); on success,
when GGUF export was requested, it probes the well-known file
`ggml-model-f16.gguf` inside the fused-model directory and returns its
path only if the file exists — otherwise `gguf_path` stays `None`
with no error and no warning. -/
def fuse_and_export (outputDir : PyStr) (fuseRc : Int)
    (ggufFilePresent : Bool) (exportGguf : Bool) :
    Except PyError (PyStr × Option PyStr) :=
  let fusedPath := outputDir ++ pys "/fused_model"
  if fuseRc ≠ 0 then
    .error (.calledProcessError fuseRc [pys "mlx_lm.fuse"])
  else
    .ok (fusedPath,
      if exportGguf && ggufFilePresent then
        some (fusedPath ++ pys "/ggml-model-f16.gguf")
      else none)

/-- The summary block printed at the end of the MLX script's `main`
(finetune_mlx.py, lines 261-286); `os.path.abspath` is modelled as the
identity on paths. -/
def mlxSummary (adapterPath fusedPath : PyStr) (ggufPath : Option PyStr) :
    List PyStr :=
  [ pys "", banner60, pys "Training complete!", banner60, pys "",
    pys "Adapters:    " ++ adapterPath,
    pys "Fused model: " ++ fusedPath ]
  ++ (match ggufPath with
      | some g => [pys "GGUF model:  " ++ g]
      | none => [])
  ++ [ pys "", pys "Next steps - Use your fine-tuned model:", pys "" ]
  ++ (match ggufPath with
      | some g =>
        [ pys "  LMStudio:",
          pys "    lms import " ++ g ++ pys " --user-repo local/qwen3-sql-mlx",
          pys "    lms load local/qwen3-sql-mlx --gpu max",
          pys "",
          pys "  Ollama:",
          pys "    echo 'FROM " ++ g ++ pys "' > Modelfile",
          pys "    ollama create qwen3-sql-mlx -f Modelfile",
          pys "    ollama run qwen3-sql-mlx",
          pys "" ]
      | none =>
        [ pys "  Generate with MLX:",
          pys "    mlx_lm.generate --model " ++ fusedPath ++ pys " --prompt 'Your prompt'",
          pys "" ])

/- ==================================================================
   Helper lemmas
   ================================================================== -/

/-- The stderr loop is exactly a filter by the benign predicate. -/
theorem stderrLoop_eq_filter (lines : List PyStr) :
    stderrLoop lines = lines.filter (fun l => !(isBenign l)) := by
  induction lines with
  | nil => rfl
  | cons l ls ih =>
    by_cases h : isBenign l <;> simp [stderrLoop, h, List.filter_cons, ih]

/-- Splitting a concatenation at an element absent from both left
parts is unambiguous. -/
theorem append_mem_split_inj {α : Type} {x : α} :
    ∀ (a₁ : List α) {a₂ t₁ t₂ : List α}, x ∉ a₁ → x ∉ a₂ →
      a₁ ++ x :: t₁ = a₂ ++ x :: t₂ → a₁ = a₂ ∧ t₁ = t₂ := by
  intro a₁
  induction a₁ with
  | nil =>
    intro a₂ t₁ t₂ _ h₂ heq
    cases a₂ with
    | nil => simpa using heq
    | cons b bs =>
      simp only [List.nil_append, List.cons_append, List.cons.injEq] at heq
      exact absurd (heq.1 ▸ List.mem_cons_self b bs) h₂
  | cons a as ih =>
    intro a₂ t₁ t₂ h₁ h₂ heq
    cases a₂ with
    | nil =>
      simp only [List.cons_append, List.nil_append, List.cons.injEq] at heq
      exact absurd (heq.1 ▸ List.mem_cons_self a as) h₁
    | cons b bs =>
      simp only [List.cons_append, List.cons.injEq] at heq
      have h₁' : x ∉ as := fun hx => h₁ (List.mem_cons_of_mem _ hx)
      have h₂' : x ∉ bs := fun hx => h₂ (List.mem_cons_of_mem _ hx)
      obtain ⟨he, ht⟩ := ih h₁' h₂' heq.2
      exact ⟨by rw [heq.1, he], ht⟩

/-- The prompt template is injective on examples whose schema text
contains no newline: the schema ends at the first newline after the
fixed header, and the question follows the fixed separator. -/
theorem sftPrompt_inj {e₁ e₂ : RawExample}
    (h₁ : '\n' ∉ e₁.context) (h₂ : '\n' ∉ e₂.context)
    (h : sftPrompt e₁ = sftPrompt e₂) :
    e₁.context = e₂.context ∧ e₁.question = e₂.question := by
  unfold sftPrompt at h
  rw [List.append_assoc, List.append_assoc, List.append_assoc, List.append_assoc] at h
  have h' := List.append_cancel_left h
  have hmid : promptMid ++ e₁.question = '\n' :: (pys "\nWrite a SQL query to answer: " ++ e₁.question) := rfl
  have hmid₂ : promptMid ++ e₂.question = '\n' :: (pys "\nWrite a SQL query to answer: " ++ e₂.question) := rfl
  rw [hmid, hmid₂] at h'
  obtain ⟨hc, ht⟩ := append_mem_split_inj _ h₁ h₂ h'
  exact ⟨hc, List.append_cancel_left ht⟩

/-- Length is preserved by the modelled seeded shuffle. -/
theorem shuffleAux_length : ∀ (n s : Nat) (l : List Nat), l.length ≤ n →
    (shuffleAux s l).length = l.length := by
  intro n
  induction n with
  | zero =>
    intro s l h
    have : l = [] := List.eq_nil_of_length_eq_zero (Nat.le_zero.mp h)
    subst this
    rw [shuffleAux]
  | succ n ih =>
    intro s l h
    match l with
    | [] => rw [shuffleAux]
    | x :: xs =>
      rw [shuffleAux]
      have hi : s % (x :: xs).length < (x :: xs).length := Nat.mod_lt _ (by simp)
      have hlen : ((x :: xs).eraseIdx (s % (x :: xs).length)).length = xs.length := by
        rw [List.length_eraseIdx, if_pos hi]
        simp
      have hxs : ((x :: xs).eraseIdx (s % (x :: xs).length)).length ≤ n := by
        rw [hlen]
        simp only [List.length_cons] at h
        omega
      rw [List.length_cons, ih (lcg s) _ hxs, hlen, List.length_cons]

/-- The modelled seeded shuffle draws only elements of its input. -/
theorem shuffleAux_subset : ∀ (n s : Nat) (l : List Nat), l.length ≤ n →
    ∀ y ∈ shuffleAux s l, y ∈ l := by
  intro n
  induction n with
  | zero =>
    intro s l h
    have : l = [] := List.eq_nil_of_length_eq_zero (Nat.le_zero.mp h)
    subst this
    intro y hy
    rw [shuffleAux] at hy
    exact absurd hy (List.not_mem_nil y)
  | succ n ih =>
    intro s l h y hy
    match l with
    | [] =>
      rw [shuffleAux] at hy
      exact absurd hy (List.not_mem_nil y)
    | x :: xs =>
      rw [shuffleAux] at hy
      have hi : s % (x :: xs).length < (x :: xs).length := Nat.mod_lt _ (by simp)
      rcases List.mem_cons.mp hy with hhead | htail
      · rw [hhead, List.getD_eq_getElem _ _ hi]
        exact List.getElem_mem hi
      · have hlen : ((x :: xs).eraseIdx (s % (x :: xs).length)).length ≤ n := by
          rw [List.length_eraseIdx, if_pos hi]
          simp only [List.length_cons] at h ⊢
          omega
        exact List.eraseIdx_subset _ _ (ih (lcg s) _ hlen y htail)

/-- The shuffled index list for size `n` lists indices below `n` and
has length `n`. -/
theorem shuffledIndices_spec (seed n : Nat) :
    (shuffledIndices seed n).length = n ∧
    ∀ i ∈ shuffledIndices seed n, i < n := by
  constructor
  · unfold shuffledIndices
    rw [shuffleAux_length (List.range n).length _ _ le_rfl, List.length_range]
  · intro i hi
    have := shuffleAux_subset (List.range n).length seed (List.range n) le_rfl i hi
    exact List.mem_range.mp this

/-- `filterMap` by in-bounds indexing drops nothing. -/
theorem filterMap_getElem_length {α : Type} (xs : List α) :
    ∀ (l : List Nat), (∀ i ∈ l, i < xs.length) →
      (l.filterMap (fun i => xs[i]?)).length = l.length := by
  intro l
  induction l with
  | nil => simp
  | cons i is ih =>
    intro h
    have hi : i < xs.length := h i (List.mem_cons_self i is)
    rw [List.filterMap_cons]
    simp only [List.getElem?_eq_getElem hi]
    rw [List.length_cons, ih (fun j hj => h j (List.mem_cons_of_mem _ hj))]
    simp

/-- `round(f·N)` stays within `[0, N]` for a fraction `f ∈ [0, 1]`. -/
theorem evalSize_le (f : ℚ) (n : Nat) (h1 : f ≤ 1) :
    evalSize f n ≤ n := by
  unfold evalSize
  have hfn : f * n ≤ (n : ℚ) := by
    calc f * n ≤ 1 * n := mul_le_mul_of_nonneg_right h1 (by positivity)
    _ = n := one_mul _
  have hr : round (f * (n : ℚ)) ≤ round ((n : ℚ)) := by
    rw [round_eq, round_eq]
    exact Int.floor_le_floor (by linarith)
  have hn : round ((n : ℚ)) = (n : ℤ) := round_natCast n
  exact Int.toNat_le.mpr (hn ▸ hr)

/- ==================================================================
   Claim theorems
   ================================================================== -/

/-- C1: with the converter subprocess exiting non-zero (here with code
1), the `CalledProcessError` raised by `_run_with_filtered_stderr` is
NOT caught by `main`'s `except RuntimeError` handler: the GGUF block of
`main` ends in the propagated exception (so the process dies with a
non-zero exit and the warning/summary lines are never printed), rather
than in the warning-and-continue outcome the claim describes. -/
theorem c1_converter_failure_escapes_main :
    mainGgufStep false (pys "./.finetune/qwen3-sql-final") [pys "docker"] 1 []
      = .error (.calledProcessError 1 [pys "docker"]) ∧
    catchesAsRuntimeError (.calledProcessError 1 [pys "docker"]) = false := by
  exact ⟨rfl, rfl⟩

/-- C2 counterexample: the claim's "the three profiles'
precision-flag pairs (bf16, fp16) are pairwise distinct" is false: the
MPS profile (a Mac with the MPS accelerator) and the CPU profile (no
accelerator at all) are different profiles with the identical
precision-flag pair (false, false). -/
theorem c2_counterexample :
    (get_device_info true true false).bf16 = (get_device_info false false false).bf16 ∧
    (get_device_info true true false).fp16 = (get_device_info false false false).fp16 ∧
    get_device_info true true false ≠ get_device_info false false false := by
  refine ⟨rfl, rfl, ?_⟩
  decide

/-- C2 (amended): device-profile selection is a pure function of the
platform facts — Mac with MPS available gives the MPS profile (batch
size 2, checkpointing on); otherwise CUDA available gives the CUDA
profile (batch size 4, bf16, checkpointing off); otherwise the CPU
profile (batch size 1, checkpointing on).  The CUDA profile's
precision-flag pair differs from the MPS and CPU pairs (which
coincide), and no profile has bf16 and fp16 both true. -/
theorem c2_device_profile_selection :
    (∀ cuda, get_device_info true true cuda = mpsProfile) ∧
    (∀ isMac mps cuda, (isMac && mps) = false → cuda = true →
      get_device_info isMac mps cuda = cudaProfile) ∧
    (∀ isMac mps cuda, (isMac && mps) = false → cuda = false →
      get_device_info isMac mps cuda = cpuProfile) ∧
    mpsProfile.default_batch_size = 2 ∧ mpsProfile.gradient_checkpointing = true ∧
    cudaProfile.default_batch_size = 4 ∧ cudaProfile.bf16 = true ∧
    cudaProfile.gradient_checkpointing = false ∧
    cpuProfile.default_batch_size = 1 ∧ cpuProfile.gradient_checkpointing = true ∧
    (cudaProfile.bf16, cudaProfile.fp16) ≠ (mpsProfile.bf16, mpsProfile.fp16) ∧
    (cudaProfile.bf16, cudaProfile.fp16) ≠ (cpuProfile.bf16, cpuProfile.fp16) ∧
    (∀ isMac mps cuda, ¬((get_device_info isMac mps cuda).bf16 = true ∧
      (get_device_info isMac mps cuda).fp16 = true)) := by
  decide

/-- C2 witness: the three branches realised at concrete platform
facts. -/
theorem c2_device_profile_selection_witness :
    get_device_info true true false = mpsProfile ∧
    get_device_info false false true = cudaProfile ∧
    get_device_info false false false = cpuProfile :=
  ⟨c2_device_profile_selection.1 false,
   c2_device_profile_selection.2.1 false false true rfl rfl,
   c2_device_profile_selection.2.2.1 false false false rfl rfl⟩

/-- C6: the stderr loop of `_run_with_filtered_stderr` drops exactly
the lines containing at least one of the five fixed benign substrings
and forwards every other line unchanged, in its original relative
order: the forwarded stream is precisely the sublist of non-benign
lines. -/
theorem c6_stderr_filtering (lines : List PyStr) :
    stderrLoop lines = lines.filter (fun l => !(isBenign l)) ∧
    (stderrLoop lines).Sublist lines ∧
    (∀ l ∈ lines, isBenign l = false → l ∈ stderrLoop lines) ∧
    (∀ l ∈ stderrLoop lines, isBenign l = false ∧ l ∈ lines) := by
  have heq := stderrLoop_eq_filter lines
  refine ⟨heq, ?_, ?_, ?_⟩
  · rw [heq]
    exact List.filter_sublist lines
  · intro l hl hb
    rw [heq]
    exact List.mem_filter.mpr ⟨hl, by rw [hb]; rfl⟩
  · intro l hl
    rw [heq] at hl
    obtain ⟨hmem, hp⟩ := List.mem_filter.mp hl
    exact ⟨by simpa using hp, hmem⟩

/-- C6 witness: a benign line (containing "incorrect regex pattern")
is dropped while an ordinary error line is forwarded. -/
theorem c6_stderr_filtering_witness :
    pys "Traceback: real failure" ∈
      stderrLoop [pys "some incorrect regex pattern warning", pys "Traceback: real failure"] ∧
    isBenign (pys "some incorrect regex pattern warning") = true :=
  ⟨(c6_stderr_filtering [pys "some incorrect regex pattern warning", pys "Traceback: real failure"]).2.2.1
      (pys "Traceback: real failure") (by decide) (by decide),
   by decide⟩

/-- C7: launched on a non-macOS system, the MLX script's platform
check fails up front: `main`'s result is `sys.exit(1)` with the
diagnostic block, for EVERY continuation pipeline (so no dataset
loading or training can have run), and the diagnostic block contains
the error text. -/
theorem c7_non_macos_exits_before_pipeline (system machine : PyStr)
    (h : system ≠ pys "Darwin") :
    (∀ (ρ : Type) (pipeline : Unit → ρ),
      mlx_main_run system machine pipeline = .error (1, notMacErrorLines)) ∧
    pys "ERROR: Not running on macOS" ∈ notMacErrorLines := by
  constructor
  · intro ρ pipeline
    unfold mlx_main_run check_apple_silicon
    rw [if_neg h]
  · simp [notMacErrorLines]

/-- C7 witness: a Linux x86_64 platform trips the check. -/
theorem c7_non_macos_exits_before_pipeline_witness :
    pys "Linux" ≠ pys "Darwin" ∧
    mlx_main_run (pys "Linux") (pys "x86_64") (fun _ => (0 : Nat))
      = .error (1, notMacErrorLines) :=
  ⟨by decide,
   (c7_non_macos_exits_before_pipeline (pys "Linux") (pys "x86_64") (by decide)).1
      Nat (fun _ => 0)⟩

/-- C8: whatever the CLI arguments and device profile, the
`SFTConfig` built by `main` has gradient accumulation 4, max sequence
length 512, a cosine schedule with warmup ratio 0.1, checkpoint saving
disabled, intermediate evaluation disabled, and takes its
checkpointing and precision flags from the device profile. -/
theorem c8_sft_config_fixed_fields (args : CliArgs) (dev : DeviceInfo) :
    (buildSFTConfig args dev).gradient_accumulation_steps = 4 ∧
    (buildSFTConfig args dev).max_length = 512 ∧
    (buildSFTConfig args dev).lr_scheduler_type = pys "cosine" ∧
    (buildSFTConfig args dev).warmup_ratio = 1/10 ∧
    (buildSFTConfig args dev).save_strategy = pys "no" ∧
    (buildSFTConfig args dev).eval_strategy = pys "no" ∧
    (buildSFTConfig args dev).gradient_checkpointing = dev.gradient_checkpointing ∧
    (buildSFTConfig args dev).bf16 = dev.bf16 ∧
    (buildSFTConfig args dev).fp16 = dev.fp16 :=
  ⟨rfl, rfl, rfl, rfl, rfl, rfl, rfl, rfl, rfl⟩

/-- C9: all loaders test the sample cap for truthiness, so a cap of 0
is "no cap": each loader returns everything it would return with
`max_samples=None`, and in particular `applyMaxSamples (some 0)` is
the identity. -/
theorem c9_zero_cap_is_no_cap (α : Type) (lines : List PyStr)
    (rows : List (RowEntry α)) (ds : List α) :
    load_jsonl_dataset lines (some 0) = load_jsonl_dataset lines none ∧
    load_local_dataset rows (some 0) = load_local_dataset rows none ∧
    load_hf_dataset ds (some 0) = load_hf_dataset ds none ∧
    applyMaxSamples (some 0) ds = ds :=
  ⟨rfl, rfl, rfl, rfl⟩

/-- C5 counterexample: "for every sample cap value" fails at cap 0:
each loader returns all records (here 1) instead of
min(0, N) = 0, because `if max_samples:` treats 0 as falsy. -/
theorem c5_counterexample :
    (load_jsonl_dataset [pys "r"] (some 0)).length ≠ min (Int.toNat 0) 1 ∧
    (load_local_dataset [⟨(0 : Nat)⟩] (some 0)).length ≠ min (Int.toNat 0) 1 ∧
    (load_hf_dataset [(0 : Nat)] (some 0)).length ≠ min (Int.toNat 0) 1 := by
  refine ⟨by decide, by decide, by decide⟩

/-- C5 (amended): for every POSITIVE sample cap `m`, each of the three
loaders yields exactly `min(m, N)` records, namely the first
`min(m, N)` rows of its source in original order (for the JSONL loader
the source rows are the non-blank lines). -/
theorem c5_positive_cap_truncation (m : Int) (hm : 0 < m) (α : Type)
    (lines : List PyStr) (rows : List (RowEntry α)) (ds : List α) :
    load_jsonl_dataset lines (some m)
        = (lines.filter (fun l => !(isBlankLine l))).take m.toNat ∧
    (load_jsonl_dataset lines (some m)).length
        = min m.toNat (lines.filter (fun l => !(isBlankLine l))).length ∧
    load_local_dataset rows (some m) = (rows.map RowEntry.row).take m.toNat ∧
    (load_local_dataset rows (some m)).length = min m.toNat rows.length ∧
    load_hf_dataset ds (some m) = ds.take m.toNat ∧
    (load_hf_dataset ds (some m)).length = min m.toNat ds.length := by
  have hcap : ∀ (β : Type) (xs : List β),
      applyMaxSamples (some m) xs = xs.take m.toNat := by
    intro β xs
    simp only [applyMaxSamples, pySliceTo]
    rw [if_neg (by omega : ¬ m = 0), if_pos (by omega : (0 : Int) ≤ m)]
  have hjsonl : load_jsonl_dataset lines (some m)
      = (lines.filter (fun l => !(isBlankLine l))).take m.toNat := by
    unfold load_jsonl_dataset
    rw [hcap]
  have hlocal : load_local_dataset rows (some m)
      = (rows.map RowEntry.row).take m.toNat := by
    unfold load_local_dataset
    rw [hcap, List.map_take]
  have hhf : load_hf_dataset ds (some m) = ds.take m.toNat := by
    simp only [load_hf_dataset]
    rw [if_neg (by omega : ¬ m = 0)]
    have hofnat : Int.ofNat ds.length = (ds.length : Int) := rfl
    have hmin : (min m (Int.ofNat ds.length)).toNat = min m.toNat ds.length := by
      rw [hofnat]
      omega
    rw [hmin]
    exact List.take_eq_take.mpr (by omega)
  refine ⟨hjsonl, ?_, hlocal, ?_, hhf, ?_⟩
  · rw [hjsonl, List.length_take]
  · rw [hlocal, List.length_take, List.length_map]
  · rw [hhf, List.length_take]

/-- C5 witness: cap 2 over a 4-line JSONL source with one blank line,
a 3-row local JSON source and a 3-row registry source. -/
theorem c5_positive_cap_truncation_witness :
    (0 : Int) < 2 ∧
    load_jsonl_dataset [pys "a", pys " ", pys "b", pys "c"] (some 2) = [pys "a", pys "b"] ∧
    load_local_dataset [⟨(1 : Nat)⟩, ⟨2⟩, ⟨3⟩] (some 2) = [1, 2] ∧
    load_hf_dataset [(4 : Nat), 5, 6] (some 2) = [4, 5] :=
  ⟨by decide,
   by
     have h := c5_positive_cap_truncation 2 (by decide) Nat
       [pys "a", pys " ", pys "b", pys "c"] [⟨1⟩, ⟨2⟩, ⟨3⟩] [4, 5, 6]
     exact h.1.trans (by decide),
   by
     have h := c5_positive_cap_truncation 2 (by decide) Nat
       [pys "a", pys " ", pys "b", pys "c"] [⟨1⟩, ⟨2⟩, ⟨3⟩] [4, 5, 6]
     exact h.2.2.1.trans (by decide),
   by
     have h := c5_positive_cap_truncation 2 (by decide) Nat
       [pys "a", pys " ", pys "b", pys "c"] [⟨1⟩, ⟨2⟩, ⟨3⟩] [4, 5, 6]
     exact h.2.2.2.2.1.trans (by decide)⟩

/-- C3 counterexample: the formatters are NOT injective on distinct
(schema, question, answer) triples: a schema text that itself embeds
the fixed separator collides with a question that embeds it, giving
two distinct raw examples with identical formatted records. -/
theorem c3_counterexample :
    (⟨pys "A\n\nWrite a SQL query to answer: B", pys "C", pys "X"⟩ : RawExample)
        ≠ ⟨pys "A", pys "B\n\nWrite a SQL query to answer: C", pys "X"⟩ ∧
    format_for_sft ⟨pys "A\n\nWrite a SQL query to answer: B", pys "C", pys "X"⟩
        = format_for_sft ⟨pys "A", pys "B\n\nWrite a SQL query to answer: C", pys "X"⟩ ∧
    to_chat_format ⟨pys "A\n\nWrite a SQL query to answer: B", pys "C", pys "X"⟩
        = to_chat_format ⟨pys "A", pys "B\n\nWrite a SQL query to answer: C", pys "X"⟩ := by
  refine ⟨by decide, by decide, by decide⟩

/-- C3 (amended): both formatters are deterministic (the same raw
example always yields the identical record), and they are injective on
examples whose schema text contains no newline character. -/
theorem c3_formatter_deterministic_and_injective (e₁ e₂ : RawExample)
    (h₁ : '\n' ∉ e₁.context) (h₂ : '\n' ∉ e₂.context) :
    format_for_sft e₁ = format_for_sft e₁ ∧
    to_chat_format e₁ = to_chat_format e₁ ∧
    (format_for_sft e₁ = format_for_sft e₂ → e₁ = e₂) ∧
    (to_chat_format e₁ = to_chat_format e₂ → e₁ = e₂) := by
  refine ⟨rfl, rfl, ?_, ?_⟩
  · intro h
    simp only [format_for_sft, SFTRecord.mk.injEq, List.cons.injEq,
      Message.mk.injEq, true_and, and_true] at h
    obtain ⟨hc, hq⟩ := sftPrompt_inj h₁ h₂ h.1
    obtain ⟨c₁, q₁, a₁⟩ := e₁
    obtain ⟨c₂, q₂, a₂⟩ := e₂
    simp_all
  · intro h
    simp only [to_chat_format, ChatRecord.mk.injEq, List.cons.injEq,
      Message.mk.injEq, true_and, and_true] at h
    obtain ⟨hc, hq⟩ := sftPrompt_inj h₁ h₂ h.1
    obtain ⟨c₁, q₁, a₁⟩ := e₁
    obtain ⟨c₂, q₂, a₂⟩ := e₂
    simp_all

/-- C3 witness: two newline-free raw examples instantiate the amended
statement. -/
theorem c3_formatter_witness :
    '\n' ∉ pys "CREATE TABLE head (age INTEGER)" ∧
    '\n' ∉ pys "CREATE TABLE city (name TEXT)" ∧
    (format_for_sft ⟨pys "CREATE TABLE head (age INTEGER)", pys "How many heads?", pys "SELECT COUNT(*) FROM head"⟩
        = format_for_sft ⟨pys "CREATE TABLE city (name TEXT)", pys "List the cities", pys "SELECT name FROM city"⟩
      → (⟨pys "CREATE TABLE head (age INTEGER)", pys "How many heads?", pys "SELECT COUNT(*) FROM head"⟩ : RawExample)
        = ⟨pys "CREATE TABLE city (name TEXT)", pys "List the cities", pys "SELECT name FROM city"⟩) :=
  ⟨by decide, by decide,
   (c3_formatter_deterministic_and_injective
      ⟨pys "CREATE TABLE head (age INTEGER)", pys "How many heads?", pys "SELECT COUNT(*) FROM head"⟩
      ⟨pys "CREATE TABLE city (name TEXT)", pys "List the cities", pys "SELECT name FROM city"⟩
      (by decide) (by decide)).2.2.1⟩

/-- C10: when GGUF export is requested, the fuse subprocess exits 0
but `ggml-model-f16.gguf` is absent, `fuse_and_export` returns the
fused path with `gguf_path = None` and no exception, and the final
summary mentions no GGUF artifact and no warning while still printing
the success banner. -/
theorem c10_missing_gguf_artifact_is_silent :
    fuse_and_export (pys "./qwen3-sql-mlx") 0 false true
      = .ok (pys "./qwen3-sql-mlx/fused_model", none) ∧
    ((mlxSummary (pys "./qwen3-sql-mlx/adapters") (pys "./qwen3-sql-mlx/fused_model") none).all
      (fun l => !(isSubstr (pys "GGUF") l) && !(isSubstr (pys "Warning") l))) = true ∧
    pys "Training complete!" ∈
      mlxSummary (pys "./qwen3-sql-mlx/adapters") (pys "./qwen3-sql-mlx/fused_model") none := by
  refine ⟨rfl, by decide, by decide⟩

/-- C4 (spec-modelled splitter): for a dataset of `N` rows and a
held-out fraction `f ∈ [0, 1]`, the split satisfies
train + eval = N and eval = round(f·N); and the index partition is a
function of the fraction, the fixed seed 42 and the input size alone,
so two runs over same-size inputs with the same fraction partition the
indices identically. -/
theorem c4_split_sizes_and_determinism (α : Type) (xs : List α) (f : ℚ)
    (_h0 : 0 ≤ f) (h1 : f ≤ 1) :
    (train_test_split xs f 42).1.length + (train_test_split xs f 42).2.length
        = xs.length ∧
    (train_test_split xs f 42).2.length = evalSize f xs.length ∧
    (∀ (β : Type) (ys : List β), ys.length = xs.length →
      indexPartition f 42 ys.length = indexPartition f 42 xs.length) := by
  obtain ⟨hlen, hmem⟩ := shuffledIndices_spec 42 xs.length
  have hk : evalSize f xs.length ≤ xs.length := evalSize_le f xs.length h1
  have htake : ∀ i ∈ (shuffledIndices 42 xs.length).take (evalSize f xs.length),
      i < xs.length := fun i hi => hmem i (List.mem_of_mem_take hi)
  have hdrop : ∀ i ∈ (shuffledIndices 42 xs.length).drop (evalSize f xs.length),
      i < xs.length := fun i hi => hmem i (List.mem_of_mem_drop hi)
  have ht : (train_test_split xs f 42).2.length = evalSize f xs.length := by
    simp only [train_test_split, indexPartition]
    rw [filterMap_getElem_length xs _ htake, List.length_take, hlen]
    omega
  refine ⟨?_, ht, ?_⟩
  · rw [ht]
    simp only [train_test_split, indexPartition]
    rw [filterMap_getElem_length xs _ hdrop, List.length_drop, hlen]
    omega
  · intro β ys hlen'
    rw [hlen']

/-- C4 witness: a 10-row dataset with fraction 1/10 splits into 9
train rows and 1 eval row. -/
theorem c4_split_witness :
    (0 : ℚ) ≤ 1/10 ∧ (1/10 : ℚ) ≤ 1 ∧
    (train_test_split [(0 : Nat), 1, 2, 3, 4, 5, 6, 7, 8, 9] (1/10) 42).1.length
      + (train_test_split [(0 : Nat), 1, 2, 3, 4, 5, 6, 7, 8, 9] (1/10) 42).2.length = 10 ∧
    (train_test_split [(0 : Nat), 1, 2, 3, 4, 5, 6, 7, 8, 9] (1/10) 42).2.length
      = evalSize (1/10) 10 :=
  ⟨by norm_num, by norm_num,
   by
     have h := c4_split_sizes_and_determinism Nat [0, 1, 2, 3, 4, 5, 6, 7, 8, 9]
       (1/10) (by norm_num) (by norm_num)
     simpa using h.1,
   by
     have h := c4_split_sizes_and_determinism Nat [0, 1, 2, 3, 4, 5, 6, 7, 8, 9]
       (1/10) (by norm_num) (by norm_num)
     simpa using h.2.1⟩
